import Mathlib

/-!
Verification of the serobj object-graph serializer (protocol "zero").

The Python sources are shallowly embedded: the fragment of the Python value
universe that the claims quantify over is the inductive type `PyVal`, and the
wire documents produced by the protocol are themselves `PyVal` values (Python
dicts with "__id__" / "source" / "representation" entries), exactly as in the
source.  Stateful pieces (the per-call id counter) are threaded explicitly;
Python exceptions are modelled with `Except String`.
-/

namespace Serobj

/--
The modelled Python value universe (serobj/protocol/zero.py).

* the five primitives null/bool/int/float/str (`_is_primitive_object`,
  line 281); a float value never takes part in arithmetic anywhere in the
  source, so it is carried as an opaque integral tag;
* raw containers: lists and dicts (assoc lists in insertion order);
* `custNone`: the CUSTOM_NONE_TYPE sentinel object of serobj/protocol/base.py
  line 23;
* `unser`: a plain object of a class whose name starts with an underscore --
  the one "unserializable object" category inside the modelled universe
  (zero.py line 399 returns the sentinel for it);
* `iterObj elems`: a list_iterator whose not-yet-consumed elements are
  `elems` (zero.py lines 386-390).
-/
inductive PyVal where
  | pnone
  | pbool (b : Bool)
  | pint (n : Int)
  | pfloat (f : Int)
  | pstr (s : String)
  | plist (xs : List PyVal)
  | pdict (kvs : List (PyVal × PyVal))
  | custNone
  | unser
  | iterObj (elems : List PyVal)
deriving Repr

mutual

/--
Python `==` on the modelled universe.  Structural except for the numeric
cross-type equalities (True == 1, 1 == 1.0, ...).  Python dict equality is
key-based and order-insensitive; every dict comparison actually performed by
the source compares dicts built with the same key order ({"name": ..,
"value": ..} argument entries), for which ordered pairwise comparison agrees.
`unser` and `custNone` are modelled as single distinguished instances, so
equality on them is identity, as for Python objects without custom eq.
Distinct iterator objects never compare equal in Python.
-/
def pyEq : PyVal → PyVal → Bool
  | .pnone, .pnone => true
  | .pbool a, .pbool b => a == b
  | .pbool a, .pint n => (if a then (1 : Int) else 0) == n
  | .pint n, .pbool a => n == (if a then (1 : Int) else 0)
  | .pbool a, .pfloat f => (if a then (1 : Int) else 0) == f
  | .pfloat f, .pbool a => f == (if a then (1 : Int) else 0)
  | .pint n, .pint m => n == m
  | .pint n, .pfloat f => n == f
  | .pfloat f, .pint n => f == n
  | .pfloat f, .pfloat g => f == g
  | .pstr a, .pstr b => a == b
  | .plist xs, .plist ys => pyEqL xs ys
  | .pdict a, .pdict b => pyEqK a b
  | .custNone, .custNone => true
  | .unser, .unser => true
  | _, _ => false

def pyEqL : List PyVal → List PyVal → Bool
  | [], [] => true
  | x :: xs, y :: ys => pyEq x y && pyEqL xs ys
  | _, _ => false

def pyEqK : List (PyVal × PyVal) → List (PyVal × PyVal) → Bool
  | [], [] => true
  | (k, v) :: xs, (k', v') :: ys => pyEq k k' && pyEq v v' && pyEqK xs ys
  | _, _ => false

end

/-- Python dict lookup `d[k]` / `d.get(k)` on the assoc-list model (first
matching key; Python dicts cannot hold duplicate keys). -/
def dlookup : List (PyVal × PyVal) → PyVal → Option PyVal
  | [], _ => none
  | (k', v) :: t, k => if pyEq k' k then some v else dlookup t k

/-- Python `k in d`. -/
def containsKey (kvs : List (PyVal × PyVal)) (k : PyVal) : Bool :=
  (dlookup kvs k).isSome

/-- Python truthiness (`if not source:` and friends). -/
def pyTruthy : PyVal → Bool
  | .pnone => false
  | .pbool b => b
  | .pint n => n != 0
  | .pfloat f => f != 0
  | .pstr s => s != ""
  | .plist xs => !xs.isEmpty
  | .pdict kvs => !kvs.isEmpty
  | _ => true

/--
The cerberus check `_SCHEMA_VALIDATOR.validate` for `_VALIDATION_SCHEMA`
(zero.py lines 32-45): key "__id__" required, integer or string (cerberus
excludes bool from integer); key "source" required, nullable, and when a dict
it must carry a required string "name" and an optional string "module"; key
"representation" required, any value.  `allow_unknown=True`: extra keys are
tolerated.
-/
def isProtoDict (kvs : List (PyVal × PyVal)) : Bool :=
  (match dlookup kvs (.pstr "__id__") with
   | some (.pint _) => true
   | some (.pstr _) => true
   | _ => false)
  && (match dlookup kvs (.pstr "source") with
      | some .pnone => true
      | some (.pdict s) =>
        (match dlookup s (.pstr "name") with
         | some (.pstr _) => true
         | _ => false)
        && (match dlookup s (.pstr "module") with
            | none => true
            | some (.pstr _) => true
            | _ => false)
      | _ => false)
  && containsKey kvs (.pstr "representation")

/-- Embedding of `_is_proto_object` (zero.py lines 283-288): a dict validating against the
schema. -/
def is_proto_object : PyVal → Bool
  | .pdict kvs => isProtoDict kvs
  | _ => false

/-- The ValueError message of `_construct` for a cycle reference (zero.py
line 443). -/
def recursionErrMsg : String := "recursion is not supported yet"

/-- The ValueError of `_process_args` for an argument whose value deconstructs
to the CUSTOM_NONE sentinel (zero.py lines 334-339; the original message
interpolates the value and protocol name). -/
def argErrMsg : String := "is not serializable by serobj"

/-- The TypeError of `_deconstruct` when a source cannot be re-imported
(zero.py lines 414-417).  Inside the modelled universe it is reachable only
by handing the CUSTOM_NONE sentinel itself to `_deconstruct` (its anonymous
class is not reachable as an attribute of its defining module). -/
def unreachableErrMsg : String := "unreachable code"

/-- Placeholder error for the `_construct` branch that imports a non-null
source (zero.py line 454): importing live types is outside the modelled
universe, and no theorem below depends on this branch. -/
def importErrMsg : String := "import of a source-bearing node is outside the modelled universe"

/-- The raw-container wire node (zero.py lines 403-408): a Python dict
`{"__id__": id, "source": None, "representation": r}`. -/
def mkNode (id : Nat) (r : PyVal) : PyVal :=
  .pdict [(.pstr "__id__", .pint (id : Int)), (.pstr "source", .pnone),
          (.pstr "representation", r)]

/-- Value of `get_object_source_info(iter([]))` (utils/path_to_object.py lines 23-46):
the class list_iterator is aliased to "iter" from module builtins. -/
def iterSourceInfo : PyVal :=
  .pdict [(.pstr "name", .pstr "iter"), (.pstr "module", .pstr "builtins"),
          (.pstr "path", .pstr "iter"), (.pstr "full_path", .pstr "builtins:iter")]

/-- The wire node for a deconstructed iterator: `_get_representation` of the
materialized element list takes the Iterable branch of zero.py lines 304-305,
wrapping the list as the single positional init argument. -/
def mkIterNode (id : Nat) (ds : List PyVal) : PyVal :=
  .pdict [(.pstr "__id__", .pint (id : Int)), (.pstr "source", iterSourceInfo),
          (.pstr "representation",
            .pdict [(.pstr "attrs", .pdict []),
                    (.pstr "init_args",
                      .plist [.pdict [(.pstr "name", .pstr ""),
                                      (.pstr "value", .plist ds)]])])]

/-- Semantics of `copy.copy` on a list_iterator (zero.py line 389): via
`list_iterator.__reduce__`/`__setstate__` the copy is an independent iterator
positioned at the same remaining elements; draining the copy leaves the
original untouched. -/
def iterCopy (remaining : List PyVal) : List PyVal := remaining

mutual

/--
Embedding of `ZeroSerobjProtocol._deconstruct` (zero.py lines 360-425) on the modelled
universe, threading the instance counter `self._counter`.

Faithful details: primitives pass through before the counter is touched
(line 362); a dict already validating against the node schema passes through
unchanged (line 369); the counter is incremented once per non-primitive,
non-proto value (line 372); a list/dict is emitted as a raw container node
whose "__id__" is the value of `self._counter` at return time, i.e. AFTER the
children have been deconstructed (line 405 reads the mutated counter); an
iterator is materialized from a copy (lines 386-390) and emitted with the
"builtins:iter" source, again with the post-children counter (line 420); an
object of an underscore-named class yields the CUSTOM_NONE sentinel
(lines 399-400); handing the sentinel itself to `_deconstruct` raises the
unreachable-code TypeError (lines 410-417).  The per-call recursion map is
invisible on trees: every value occurrence is a distinct Python identity and
entries are deleted once a subtree completes, so no lookup ever hits.  (The
cyclic-graph behaviour, where the map does act, is modelled separately
below.)
-/
def deconstruct : Nat → PyVal → Except String (Nat × PyVal)
  | c, .pnone => .ok (c, .pnone)
  | c, .pbool b => .ok (c, .pbool b)
  | c, .pint n => .ok (c, .pint n)
  | c, .pfloat f => .ok (c, .pfloat f)
  | c, .pstr s => .ok (c, .pstr s)
  | c, .plist xs => do
    let (c2, xs') ← deconstructList (c + 1) xs
    .ok (c2, mkNode c2 (.plist xs'))
  | c, .pdict kvs =>
    if isProtoDict kvs then .ok (c, .pdict kvs)
    else do
      let (c2, kvs') ← deconstructKVs (c + 1) kvs
      .ok (c2, mkNode c2 (.pdict kvs'))
  | c, .iterObj elems => do
    let (c2, ds) ← deconstructList (c + 1) (iterCopy elems)
    .ok (c2, mkIterNode c2 ds)
  | c, .unser => .ok (c + 1, .custNone)
  | _, .custNone => .error unreachableErrMsg

/-- Element-wise deconstruction of a list's members in order, threading the
counter (the comprehensions of zero.py lines 384, 389, 394). -/
def deconstructList : Nat → List PyVal → Except String (Nat × List PyVal)
  | c, [] => .ok (c, [])
  | c, v :: t => do
    let (c1, d) ← deconstruct c v
    let (c2, t') ← deconstructList c1 t
    .ok (c2, d :: t')

/-- Pair-wise deconstruction of a dict's items in insertion order, key before
value (the dict comprehension of zero.py lines 383-385).  CPython evaluates
the value expression before the key expression in dict comprehensions prior
to 3.8 and the key first from 3.8 on; the package supports both ranges
(setup.py: ~=3.5), and no claim depends on the counter interleaving between
a key and its value, so the key-first order is fixed here. -/
def deconstructKVs : Nat → List (PyVal × PyVal) → Except String (Nat × List (PyVal × PyVal))
  | c, [] => .ok (c, [])
  | c, (k, v) :: t => do
    let (c1, k') ← deconstruct c k
    let (c2, v') ← deconstruct c1 v
    let (c3, t') ← deconstructKVs c2 t
    .ok (c3, (k', v') :: t')

end

/-- A value found by Python dict lookup is structurally smaller than the
dict's item list (used for the termination of `construct`). -/
theorem dlookup_sizeOf {kvs : List (PyVal × PyVal)} {k v : PyVal}
    (h : dlookup kvs k = some v) : sizeOf v < sizeOf kvs := by
  induction kvs with
  | nil => simp [dlookup] at h
  | cons hd t ih =>
    obtain ⟨k', v'⟩ := hd
    by_cases hc : pyEq k' k = true
    · simp [dlookup, hc] at h
      subst h
      simp
      omega
    · simp [dlookup, hc] at h
      have := ih h
      simp
      omega

mutual

/--
Embedding of `ZeroSerobjProtocol._construct` (zero.py lines 438-528) on the modelled
universe.  A non-dict is rebuilt structurally (line 440); a dict carrying the
recursion marker key "__SO_RC__" raises the ValueError of line 443 before
anything else; a dict validating against the node schema with a falsy (null)
source is the raw-container payload and its representation is rebuilt
structurally (lines 445-450); a dict that does not validate is rebuilt
structurally (line 452).  A node with a truthy source requires importing a
live type (line 454), which is outside the modelled universe; no theorem
depends on that branch.
-/
def construct (v : PyVal) : Except String PyVal :=
  match v with
  | .pdict kvs =>
    if containsKey kvs (.pstr "__SO_RC__") then .error recursionErrMsg
    else if isProtoDict kvs then
      match hr : dlookup kvs (.pstr "representation") with
      | some rep =>
        if pyTruthy ((dlookup kvs (.pstr "source")).getD .pnone) then .error importErrMsg
        else constructNoProto rep
      | none => .error importErrMsg
    else constructNoProto (.pdict kvs)
  | v => constructNoProto v

termination_by (sizeOf v, 1)
decreasing_by
  all_goals simp_wf
  all_goals first
    | (apply Prod.Lex.right
       omega)
    | (apply Prod.Lex.left
       have := dlookup_sizeOf hr
       simp only [sizeOf, PyVal._sizeOf_1] at *
       omega)
    | (apply Prod.Lex.left
       simp
       omega)
    | (apply Prod.Lex.left
       omega)

/-- Embedding of `ZeroSerobjProtocol._construct_no_proto` (zero.py lines 427-436):
primitives pass through; dicts and iterables recurse element-wise through
`_construct`; anything else is returned unchanged. -/
def constructNoProto (v : PyVal) : Except String PyVal :=
  match v with
  | .pnone => .ok v
  | .pbool _ => .ok v
  | .pint _ => .ok v
  | .pfloat _ => .ok v
  | .pstr _ => .ok v
  | .pdict kvs => do
    let kvs' ← constructKVs kvs
    .ok (.pdict kvs')
  | .plist xs => do
    let xs' ← constructList xs
    .ok (.plist xs')
  | .iterObj xs => do
    let xs' ← constructList xs
    .ok (.plist xs')
  | .custNone => .ok v
  | .unser => .ok v

termination_by (sizeOf v, 0)
decreasing_by
  all_goals simp_wf
  all_goals first
    | (apply Prod.Lex.right
       omega)
    | (apply Prod.Lex.left
       have := dlookup_sizeOf hr
       simp only [sizeOf, PyVal._sizeOf_1] at *
       omega)
    | (apply Prod.Lex.left
       simp
       omega)
    | (apply Prod.Lex.left
       omega)

/-- The list comprehension of zero.py line 434. -/
def constructList (l : List PyVal) : Except String (List PyVal) :=
  match l with
  | [] => .ok []
  | v :: t => do
    let v' ← construct v
    let t' ← constructList t
    .ok (v' :: t')

termination_by (sizeOf l, 0)
decreasing_by
  all_goals simp_wf
  all_goals first
    | (apply Prod.Lex.right
       omega)
    | (apply Prod.Lex.left
       have := dlookup_sizeOf hr
       simp only [sizeOf, PyVal._sizeOf_1] at *
       omega)
    | (apply Prod.Lex.left
       simp
       omega)
    | (apply Prod.Lex.left
       omega)

/-- The dict comprehension of zero.py line 432 (keys rebuilt too). -/
def constructKVs (l : List (PyVal × PyVal)) : Except String (List (PyVal × PyVal)) :=
  match l with
  | [] => .ok []
  | (k, v) :: t => do
    let k' ← construct k
    let v' ← construct v
    let t' ← constructKVs t
    .ok ((k', v') :: t')

termination_by (sizeOf l, 0)
decreasing_by
  all_goals simp_wf
  all_goals first
    | (apply Prod.Lex.right
       omega)
    | (apply Prod.Lex.left
       have := dlookup_sizeOf hr
       simp only [sizeOf, PyVal._sizeOf_1] at *
       omega)
    | (apply Prod.Lex.left
       simp
       omega)
    | (apply Prod.Lex.left
       omega)

end

/-- Embedding of `SerobjProtocolBase.serialize` (base.py lines 145-152) for the registered
`ZeroSerobjProtocol` (PROTOCOL_NAME "serobj", PROTOCOL_VERSION 0): run one
deconstruction pass from a fresh counter and wrap the payload in the
`{"meta": .., "payload": ..}` envelope. -/
def serialize (v : PyVal) : Except String PyVal := do
  let (_, payload) ← deconstruct 0 v
  .ok (.pdict [(.pstr "meta",
                 .pdict [(.pstr "protocol", .pstr "serobj"),
                         (.pstr "version", .pint 0)]),
               (.pstr "payload", payload)])

/-- The `proto_obj["payload"]` read of base.py line 156 (only reached after
the compatibility check guaranteed the key exists). -/
def payloadOf : PyVal → PyVal
  | .pdict kvs => (dlookup kvs (.pstr "payload")).getD .pnone
  | _ => .pnone

/-- The ValueError of `is_compatible_proto_obj` when the payload fails the
schema (zero.py lines 554-557). -/
def schemaErrMsg : String := "SCHEMA_VALIDATOR"

/-- The ValueError of `is_compatible_proto_obj` when the argument is not an
envelope dict (zero.py lines 559-562). -/
def invalidProtoErrMsg : String := "`proto_obj` argument is invalid 'Serialized Proto Object'"

/--
Embedding of `ZeroSerobjProtocol.is_compatible_proto_obj` (zero.py lines 530-564) with the
default `allow_raw_value=True` used by `deserialize`: the argument must be a
dict with "meta" and "payload" keys; a non-dict payload is accepted as a raw
value; a dict payload must validate against the node schema.  With
`raise_exception=False` every failure returns `False` instead of raising.
-/
def is_compatible_proto_obj (proto : PyVal) (raiseExc : Bool) : Except String Bool :=
  match proto with
  | .pdict kvs =>
    if containsKey kvs (.pstr "meta") && containsKey kvs (.pstr "payload") then
      match (dlookup kvs (.pstr "payload")).getD .pnone with
      | .pdict pk =>
        if isProtoDict pk then .ok true
        else if raiseExc then .error schemaErrMsg else .ok false
      | _ => .ok true
    else if raiseExc then .error invalidProtoErrMsg else .ok false
  | _ => if raiseExc then .error invalidProtoErrMsg else .ok false

/--
Embedding of `SerobjProtocolBase.deserialize` (base.py lines 154-156): run the
compatibility check; when it returns true, reconstruct the payload; when it
returns false (only possible with `raise_exception=False`), fall off the end
of the function -- Python returns None. -/
def deserialize (proto : PyVal) (raiseExc : Bool) : Except String PyVal := do
  let compatible ← is_compatible_proto_obj proto raiseExc
  if compatible then construct (payloadOf proto)
  else .ok .pnone

/-- One full `deserialize(serialize(x))` round trip with the default
`raise_exception=True`. -/
def roundTrip (v : PyVal) : Except String PyVal := do
  let e ← serialize v
  deserialize e true

/-! ### Representation building for plain objects

`_get_representation` (zero.py lines 300-358) consults Python reflection
(`_get_attrs`, `_get_new_args`, `_get_init_args`) to resolve an attribute
mapping and optional new/init argument lists for the object being captured.
The resolution itself is environment reflection; the engine logic downstream
of it -- lines 316-357 -- is embedded here parameterized by the resolved
values. -/

/-- One entry of an ArgList: a Python dict `{"name": .., "value": ..}`; empty
name means positional. -/
structure Arg where
  name : String
  value : PyVal
deriving Repr

/-- Python `==` on two ArgList entries (dicts with the canonical
"name"/"value" key order). -/
def argEq (a b : Arg) : Bool :=
  a.name == b.name && pyEq a.value b.value

/-- Python `==` on two ArgLists. -/
def argListEq : List Arg → List Arg → Bool
  | [], [] => true
  | a :: t, b :: t' => argEq a b && argListEq t t'
  | _, _ => false

/-- The attrs loop of zero.py lines 317-322: each attribute value is
deconstructed; a value that comes back as the CUSTOM_NONE sentinel is
silently skipped (`continue`), every other value is kept under its key. -/
def processAttrs : Nat → List (String × PyVal) → Except String (Nat × List (String × PyVal))
  | c, [] => .ok (c, [])
  | c, (k, v) :: t => do
    let (c1, d) ← deconstruct c v
    let (c2, t') ← processAttrs c1 t
    match d with
    | .custNone => .ok (c2, t')
    | _ => .ok (c2, (k, d) :: t')

/-- Embedding of `_process_args` (zero.py lines 330-344): each argument value is
deconstructed; a value that comes back as the CUSTOM_NONE sentinel aborts the
whole deconstruction with the ValueError of line 335; otherwise the value
slot of the argument entry is overwritten with the deconstructed form. -/
def processArgs : Nat → List Arg → Except String (Nat × List Arg)
  | c, [] => .ok (c, [])
  | c, a :: t => do
    let (c1, d) ← deconstruct c a.value
    match d with
    | .custNone => .error argErrMsg
    | _ => do
      let (c2, t') ← processArgs c1 t
      .ok (c2, ⟨a.name, d⟩ :: t')

/-- The "init_args" slot of an emitted representation: either the literal
`"__SO_ILN__"` INIT_LIKE_NEW marker (zero.py line 30) or a processed
ArgList. -/
inductive InitArgsOut where
  | marker
  | args (l : List Arg)
deriving Repr

/-- The representation dict emitted for a plain object: the "attrs" mapping,
and the optional "new_args" / "init_args" keys (absent = `Option.none`). -/
structure ObjRepr where
  attrs : List (String × PyVal)
  new_args : Option (List Arg)
  init_args : Option InitArgsOut
deriving Repr

/--
Lines 316-357 of `_get_representation`, parameterized by the resolved
attribute mapping and the resolved `new_args` / `init_args` (each `none` when
`_get_args` returned None).  `aliased` records whether `init_args` and
`new_args` are the *same Python list object* (as happens e.g. when both
override hooks return the stored `_CALLS[id(obj)]` list,
utils/serobj_calls.py line 71).

Faithful detail: `_process_args` mutates the argument entries of the list it
is given in place (line 341), and it is run on `new_args` *before* the
`init_args == new_args` comparison of line 350; the comparison therefore sees
the processed `new_args`.  When the two lists are the same object the
comparison is trivially true, which `aliased` captures.  When neither list
resolves, `new_args` defaults to the empty list (lines 355-356).
-/
def buildRepr (c : Nat) (attrs : List (String × PyVal))
    (newArgs initArgs : Option (List Arg)) (aliased : Bool) :
    Except String (Nat × ObjRepr) := do
  let (c1, as) ← processAttrs c attrs
  match newArgs with
  | none =>
    match initArgs with
    | none => .ok (c1, ⟨as, some [], none⟩)
    | some ia => do
      let (c2, pia) ← processArgs c1 ia
      .ok (c2, ⟨as, none, some (.args pia)⟩)
  | some na => do
    let (c2, pna) ← processArgs c1 na
    match initArgs with
    | none => .ok (c2, ⟨as, some pna, none⟩)
    | some ia =>
      if aliased || argListEq ia pna then
        .ok (c2, ⟨as, some pna, some .marker⟩)
      else do
        let (c3, pia) ← processArgs c2 ia
        .ok (c3, ⟨as, some pna, some (.args pia)⟩)

/-- Fully consuming an iterator: yields all remaining elements and leaves the
iterator exhausted. -/
def drainAll (it : List PyVal) : List PyVal × List PyVal := (it, [])

/--
Lines 386-390 of `_deconstruct` with the state of the iterator object made
explicit: the result of the deconstruction together with the elements the
*original* iterator still holds afterwards.  The list comprehension of
line 389 drains `copy(obj)` -- an independent iterator positioned at the
same elements (see `iterCopy`) -- so the original iterator is returned
untouched. -/
def deconstructIterState (c : Nat) (original : List PyVal) :
    Except String (Nat × PyVal) × List PyVal :=
  let copied := iterCopy original
  let (items, _copyLeft) := drainAll copied
  (do
    let (c2, ds) ← deconstructList (c + 1) items
    .ok (c2, mkIterNode c2 ds),
   original)

/-! ### Wellformedness predicates used by the theorems -/

mutual

/-- The acceptance set of claim C1: values built from the five primitives and
raw list/dict containers only, in which no dict (at any depth) validates
against the node schema -- such a dict would be passed through by
`_is_proto_object` (zero.py line 369) instead of being captured. -/
def cleanData : PyVal → Bool
  | .pnone => true
  | .pbool _ => true
  | .pint _ => true
  | .pfloat _ => true
  | .pstr _ => true
  | .plist xs => cleanDataL xs
  | .pdict kvs => !isProtoDict kvs && cleanDataK kvs
  | .custNone => false
  | .unser => false
  | .iterObj _ => false

def cleanDataL : List PyVal → Bool
  | [] => true
  | v :: t => cleanData v && cleanDataL t

def cleanDataK : List (PyVal × PyVal) → Bool
  | [] => true
  | (k, v) :: t => cleanData k && cleanData v && cleanDataK t

end

mutual

/-- The CUSTOM_NONE sentinel object does not occur anywhere inside the value
(handing the sentinel itself to `_deconstruct` is the one modelled input that
raises, zero.py lines 410-417). -/
def noCustNone : PyVal → Bool
  | .custNone => false
  | .plist xs => noCustNoneL xs
  | .pdict kvs => noCustNoneK kvs
  | .iterObj xs => noCustNoneL xs
  | _ => true

def noCustNoneL : List PyVal → Bool
  | [] => true
  | v :: t => noCustNone v && noCustNoneL t

def noCustNoneK : List (PyVal × PyVal) → Bool
  | [] => true
  | (k, v) :: t => noCustNone k && noCustNone v && noCustNoneK t

end

mutual

/-- All "__id__" entries of a document in document (pre-order) order: the id
of a node comes before the ids inside its representation. -/
def docIds : PyVal → List Int
  | .pdict kvs =>
    (match dlookup kvs (.pstr "__id__") with
     | some (.pint n) => [n]
     | _ => []) ++ docIdsK kvs
  | .plist xs => docIdsL xs
  | .iterObj xs => docIdsL xs
  | _ => []

def docIdsL : List PyVal → List Int
  | [] => []
  | v :: t => docIds v ++ docIdsL t

def docIdsK : List (PyVal × PyVal) → List Int
  | [] => []
  | (k, v) :: t => docIds k ++ docIds v ++ docIdsK t

end

/-! ### The attribute/argument resolver (serobj/attrs.py) -/

/-- An object as seen by getattr: the name of its class and the flat
name-to-value namespace that getattr searches (instance and class attributes
merged; attribute values are opaque to the resolver). -/
structure PyObject (α : Type) where
  className : String
  attrs : List (String × α)

/-- Python `getattr(obj, k)` as an optional lookup over the namespace. -/
def getattrO {α} (o : PyObject α) (k : String) : Option α :=
  match o.attrs.find? (fun kv => kv.1 == k) with
  | some kv => some kv.2
  | none => none

/-- The AttributeError raised by the bare `getattr(obj, key)` of attrs.py
line 44 when the key is missing and no default was supplied. -/
def attributeErrMsg : String := "AttributeError"

/--
Embedding of `SerobjAttrs.search_attr_in` (attrs.py lines 30-48) for the logical key
`name` (the enum's value string): try the per-type-namespaced
`_<ClassName>__<name>`, then the single-underscore `_<name>`, then the bare
`name`; return the key actually found together with its value.  Without a
default the bare lookup is `getattr(obj, key)`, which raises AttributeError
when missing; with a default it is `getattr(obj, key, default)`.  The
`val == _MISSING_VALUE` comparisons of the source test against a fresh
`object()` sentinel that no attribute value equals; the sentinel is modelled
by `Option`.
-/
def search_attr_in {α} (o : PyObject α) (name : String) (default? : Option α) :
    Except String (String × α) :=
  let k1 := "_" ++ o.className ++ "__" ++ name
  match getattrO o k1 with
  | some v => .ok (k1, v)
  | none =>
    let k2 := "_" ++ name
    match getattrO o k2 with
    | some v => .ok (k2, v)
    | none =>
      match default? with
      | none =>
        match getattrO o name with
        | some v => .ok (name, v)
        | none => .error attributeErrMsg
      | some d => .ok (name, (getattrO o name).getD d)

/-! ### The protocol registry (serobj/protocol/base.py) -/

/-- One non-abstract protocol class definition as the metaclass sees it: the
PROTOCOL_NAME entry of the class dict (None when absent; the empty string is
falsy and also falls back to the reserved name) and the PROTOCOL_VERSION
entry (None/absent falls back to 0). -/
structure ProtoDef where
  pname : Option String
  pversion : Option Nat

/-- base.py line 107: `dct.get("PROTOCOL_NAME", None) or _DEFAULT_PROTOCOL_NAME`. -/
def regName (n : Option String) : String :=
  match n with
  | none => "serobj"
  | some s => if s = "" then "serobj" else s

/-- base.py line 108: `int(dct.get("PROTOCOL_VERSION") or 0)` (versions are
non-negative in the modelled universe). -/
def regVersion (v : Option Nat) : Nat := v.getD 0

/-- The process-wide registry together with the process default
(`_PROTOCOLS` / `_DEFAULT_PROTOCOL`, base.py lines 19-20): the registered
(name, version) pairs in registration order and the current default pair. -/
structure RegState where
  registered : List (String × Nat)
  dflt : Option (String × Nat)
deriving Repr

/-- The RuntimeError of base.py lines 121-125. -/
def dupProtoErrMsg : String := "already registered"

/--
Embedding of `SerobjProtocolMeta.__new__` for one non-abstract class (base.py
lines 106-138): a duplicate (name, version) registration is a fatal
RuntimeError; otherwise the pair is recorded and becomes the process default
exactly when there is no default yet, or when the name is the reserved
default name "serobj" and the *current default's* version is smaller than
the new version (the condition of lines 131-135 parses as
`(not _DEFAULT_PROTOCOL) or (name == DEFAULT_NAME and default.version < version)`).
-/
def registerProtocol (st : RegState) (d : ProtoDef) : Except String RegState :=
  let n := regName d.pname
  let v := regVersion d.pversion
  if (n, v) ∈ st.registered then .error dupProtoErrMsg
  else
    let dflt' :=
      match st.dflt with
      | none => some (n, v)
      | some (dn, dv) => if n = "serobj" ∧ dv < v then some (n, v) else some (dn, dv)
    .ok ⟨st.registered ++ [(n, v)], dflt'⟩

/-- A sequence of protocol class definitions processed in order, starting
from the empty registry of a fresh process. -/
def runRegistrations (ds : List ProtoDef) : Except String RegState :=
  ds.foldlM registerProtocol ⟨[], none⟩

/-! ### Cyclic object graphs

Self-reference cannot be expressed in a tree, so the graph universe is a heap
of container cells addressed by natural numbers, with values being primitives
or references to cells; `id(obj)` is the cell address.  Only this model
exercises the recursion map of `_deconstruct`. -/

/-- A primitive value or a reference to a heap cell. -/
inductive GVal where
  | gnone
  | gbool (b : Bool)
  | gint (n : Int)
  | gstr (s : String)
  | gref (a : Nat)
deriving Repr, DecidableEq

/-- One heap cell: a list object, a dict object (with hashable string keys),
or a plain object of an underscore-named class (the unserializable category
of zero.py line 399). -/
inductive Cell where
  | listCell (xs : List GVal)
  | dictCell (kvs : List (String × GVal))
  | unserCell
deriving Repr

/-- Documents produced from the graph universe. -/
inductive GDoc where
  | gnone
  | gbool (b : Bool)
  | gint (n : Int)
  | gstr (s : String)
  | grecRef (n : Nat)
  | glistNode (id : Nat) (xs : List GDoc)
  | gdictNode (id : Nat) (kvs : List (String × GDoc))
  | gcustNone
  | gpassThrough (a : Nat)
deriving Repr

/-- Assoc lookup for string-keyed cells. -/
def slookup : List (String × GVal) → String → Option GVal
  | [], _ => none
  | (k', v) :: t, k => if k' == k then some v else slookup t k

/-- Embedding of `_is_proto_object` on a heap object: only a dict cell can validate; the
"source" entry may be None or a reference to a dict cell satisfying the
source sub-schema. -/
def isProtoCell (heap : List Cell) : Cell → Bool
  | .dictCell kvs =>
    (match slookup kvs "__id__" with
     | some (.gint _) => true
     | some (.gstr _) => true
     | _ => false)
    && (match slookup kvs "source" with
        | some .gnone => true
        | some (.gref a) =>
          (match heap[a]? with
           | some (.dictCell s) =>
             (match slookup s "name" with
              | some (.gstr _) => true
              | _ => false)
             && (match slookup s "module" with
                 | none => true
                 | some (.gstr _) => true
                 | _ => false)
           | _ => false)
        | _ => false)
    && (slookup kvs "representation").isSome
  | _ => false

/-- Recursion-map lookup (`self._recursion_map.get(id(obj))`, zero.py
line 374). -/
def mlookup : List (Nat × Nat) → Nat → Option Nat
  | [], _ => none
  | (a', n) :: t, a => if a' == a then some n else mlookup t a

/-- Recursion-map deletion (`del self._recursion_map[id(obj)]`, zero.py
line 425). -/
def mErase (m : List (Nat × Nat)) (a : Nat) : List (Nat × Nat) :=
  m.filter (fun kv => kv.1 != a)

/--
Embedding of `_deconstruct` on the graph universe, processing a worklist of sibling
values left to right and threading the counter and the recursion map.

`fuel` is a modelling artifact only: it decreases at every step, and any
value large enough for the input leaves the result unchanged (Python's own
recursion is bounded by the object graph; a run that returns `some` with a
given fuel exhibits the terminating Python run).

Faithful details, as in the tree model: primitives pass through before the
counter is touched; an already-valid proto dict passes through unchanged
(line 369, before the counter increment); the counter increments at line 372
even when the recursion map then hits; a recursion hit emits the marker dict
with the *stored entry counter* (line 376); the emitted "__id__" of a
container node is the counter read AFTER the children were processed
(line 405); the entry added at line 378 is deleted in the finally block at
line 425 -- except on the CUSTOM_NONE early return of line 400, which exits
before the try block is entered and therefore leaks the in-progress entry.
Dict keys are strings here, which deconstruct to themselves without touching
any state, so only the values are walked.
-/
def decL (heap : List Cell) : Nat → Nat → List (Nat × Nat) → List GVal →
    Option (Nat × List (Nat × Nat) × List GDoc)
  | 0, _, _, _ => none
  | _ + 1, c, m, [] => some (c, m, [])
  | fuel + 1, c, m, v :: vs =>
    let cont := fun (c' : Nat) (m' : List (Nat × Nat)) (d : GDoc) => do
      let (c'', m'', ds) ← decL heap fuel c' m' vs
      some (c'', m'', d :: ds)
    match v with
    | .gnone => cont c m .gnone
    | .gbool b => cont c m (.gbool b)
    | .gint n => cont c m (.gint n)
    | .gstr s => cont c m (.gstr s)
    | .gref a =>
      match heap[a]? with
      | none => none
      | some cell =>
        if isProtoCell heap cell then cont c m (.gpassThrough a)
        else
          let c1 := c + 1
          match mlookup m a with
          | some n => cont c1 m (.grecRef n)
          | none =>
            let m1 := (a, c1) :: m
            match cell with
            | .listCell xs => do
              let (c2, m2, ds) ← decL heap fuel c1 m1 xs
              cont c2 (mErase m2 a) (.glistNode c2 ds)
            | .dictCell kvs => do
              let (c2, m2, ds) ← decL heap fuel c1 m1 (kvs.map Prod.snd)
              cont c2 (mErase m2 a) (.gdictNode c2 ((kvs.map Prod.fst).zip ds))
            | .unserCell => cont c1 m1 .gcustNone

/-- One top-level `serialize` pass over a single graph value: fresh counter,
empty recursion map. -/
def decTop (heap : List Cell) (fuel : Nat) (v : GVal) :
    Option (Nat × List (Nat × Nat) × List GDoc) :=
  decL heap fuel 0 [] [v]

/-- Embedding of `_is_primitive_object` (zero.py lines 279-281). -/
def is_primitive_object : PyVal → Bool
  | .pnone => true
  | .pbool _ => true
  | .pint _ => true
  | .pfloat _ => true
  | .pstr _ => true
  | _ => false

/-- The payload side of the compatibility check: a non-dict payload is a raw
value (always accepted); a dict payload must validate against the node
schema. -/
def compatPayload : PyVal → Bool
  | .pdict kvs => isProtoDict kvs
  | _ => true

/-! ### Helper lemmas -/

theorem isProtoDict_mkNode (id : Nat) (r : PyVal) :
    isProtoDict [(.pstr "__id__", .pint (id : Int)), (.pstr "source", .pnone),
                 (.pstr "representation", r)] = true := by
  simp [isProtoDict, dlookup, pyEq, containsKey]

theorem compatPayload_mkNode (id : Nat) (r : PyVal) :
    compatPayload (mkNode id r) = true := by
  simp [compatPayload, mkNode, isProtoDict_mkNode]

theorem construct_mkNode (id : Nat) (r : PyVal) :
    construct (mkNode id r) = constructNoProto r := by
  rw [mkNode, construct]
  simp [containsKey, dlookup, pyEq, isProtoDict_mkNode, pyTruthy]

mutual

/-- Round-trip kernel: a clean value deconstructs without error, its document
passes the payload compatibility check, and reconstructing the document gives
the value back. -/
theorem rt_val (v : PyVal) (c : Nat) (h : cleanData v = true) :
    ∃ p : Nat × PyVal, deconstruct c v = .ok p ∧ compatPayload p.2 = true ∧
      construct p.2 = .ok v := by
  match v with
  | .pnone => exact ⟨(c, .pnone), rfl, rfl, by simp [construct, constructNoProto]⟩
  | .pbool b => exact ⟨(c, .pbool b), rfl, rfl, by simp [construct, constructNoProto]⟩
  | .pint n => exact ⟨(c, .pint n), rfl, rfl, by simp [construct, constructNoProto]⟩
  | .pfloat f => exact ⟨(c, .pfloat f), rfl, rfl, by simp [construct, constructNoProto]⟩
  | .pstr s => exact ⟨(c, .pstr s), rfl, rfl, by simp [construct, constructNoProto]⟩
  | .plist xs =>
    have hx : cleanDataL xs = true := by simpa [cleanData] using h
    obtain ⟨⟨c2, ds⟩, hdec, hcons⟩ := rt_list xs (c + 1) hx
    refine ⟨(c2, mkNode c2 (.plist ds)), ?_, compatPayload_mkNode c2 _, ?_⟩
    · simp [deconstruct, hdec, Except.bind, Bind.bind]
    · rw [construct_mkNode]
      simp [constructNoProto, hcons, Except.bind, Bind.bind]
  | .pdict kvs =>
    have h' : isProtoDict kvs = false ∧ cleanDataK kvs = true := by
      simpa [cleanData] using h
    obtain ⟨⟨c2, ds⟩, hdec, hcons⟩ := rt_kvs kvs (c + 1) h'.2
    refine ⟨(c2, mkNode c2 (.pdict ds)), ?_, compatPayload_mkNode c2 _, ?_⟩
    · simp [deconstruct, h'.1, hdec, Except.bind, Bind.bind]
    · rw [construct_mkNode]
      simp [constructNoProto, hcons, Except.bind, Bind.bind]
  | .custNone => simp [cleanData] at h
  | .unser => simp [cleanData] at h
  | .iterObj xs => simp [cleanData] at h
termination_by sizeOf v

theorem rt_list (xs : List PyVal) (c : Nat) (h : cleanDataL xs = true) :
    ∃ p : Nat × List PyVal, deconstructList c xs = .ok p ∧
      constructList p.2 = .ok xs := by
  match xs with
  | [] => exact ⟨(c, []), rfl, by simp [constructList]⟩
  | v :: t =>
    have h' : cleanData v = true ∧ cleanDataL t = true := by
      simpa [cleanDataL] using h
    obtain ⟨⟨c1, d⟩, hd, _, hc⟩ := rt_val v c h'.1
    obtain ⟨⟨c2, ds⟩, hds, hcs⟩ := rt_list t c1 h'.2
    refine ⟨(c2, d :: ds), ?_, ?_⟩
    · simp [deconstructList, hd, hds, Except.bind, Bind.bind]
    · simp [constructList, hc, hcs, Except.bind, Bind.bind]
termination_by sizeOf xs

theorem rt_kvs (kvs : List (PyVal × PyVal)) (c : Nat) (h : cleanDataK kvs = true) :
    ∃ p : Nat × List (PyVal × PyVal), deconstructKVs c kvs = .ok p ∧
      constructKVs p.2 = .ok kvs := by
  match kvs with
  | [] => exact ⟨(c, []), rfl, by simp [constructKVs]⟩
  | (k, v) :: t =>
    have h' : (cleanData k = true ∧ cleanData v = true) ∧ cleanDataK t = true := by
      simpa [cleanDataK] using h
    obtain ⟨⟨c1, dk⟩, hdk, _, hck⟩ := rt_val k c h'.1.1
    obtain ⟨⟨c2, dv⟩, hdv, _, hcv⟩ := rt_val v c1 h'.1.2
    obtain ⟨⟨c3, ds⟩, hds, hcs⟩ := rt_kvs t c2 h'.2
    refine ⟨(c3, (dk, dv) :: ds), ?_, ?_⟩
    · simp [deconstructKVs, hdk, hdv, hds, Except.bind, Bind.bind]
    · simp [constructKVs, hck, hcv, hcs, Except.bind, Bind.bind]
termination_by sizeOf kvs

end

/-! ### Claim C1 -/

/-- The mapping of primitive values that refutes claim C1 as stated: it
happens to match the typed-node schema, so `_deconstruct` passes it through
as an already-serialized fragment (zero.py line 369) and `_construct` then
rebuilds only its "representation" entry. -/
def C1cx : PyVal :=
  .pdict [(.pstr "__id__", .pint 1), (.pstr "source", .pnone),
          (.pstr "representation", .pint 2)]

/-- C1 counterexample: the claim "for every primitive value and for every
supported raw container (a mapping or sequence of such values),
deserialize(serialize(x)) == x" fails on the code for the mapping
`{"__id__": 1, "source": None, "representation": 2}` of primitive values:
the round trip returns `2`, which is not equal to the mapping (also not
under Python value equality). -/
theorem C1_roundtrip_counterexample :
    roundTrip C1cx = .ok (.pint 2) ∧ C1cx ≠ .pint 2 ∧ pyEq C1cx (.pint 2) = false := by
  refine ⟨?_, fun hx => PyVal.noConfusion hx, rfl⟩
  simp [C1cx, roundTrip, serialize, deserialize, deconstruct, is_compatible_proto_obj,
        isProtoDict, dlookup, pyEq, containsKey, payloadOf, construct, constructNoProto,
        pyTruthy, Except.bind, Bind.bind]

/-- C1 (amended): for every primitive value and every raw container built
from primitives, lists and mappings in which no mapping (at any depth)
itself matches the typed-node schema, deserializing the envelope produced by
serializing the value yields a value equal to the original:
`deserialize(serialize(x)) = x`.  (The excluded mappings are passed through
by the idempotent re-serialization rule of zero.py line 369 and deserialize
to their "representation" entry instead.) -/
theorem C1_roundtrip_amended (v : PyVal) (h : cleanData v = true) :
    roundTrip v = .ok v := by
  obtain ⟨⟨c2, d⟩, hdec, hcompat, hcons⟩ := rt_val v 0 h
  have hpay : payloadOf (.pdict [(.pstr "meta",
      .pdict [(.pstr "protocol", .pstr "serobj"), (.pstr "version", .pint 0)]),
      (.pstr "payload", d)]) = d := by
    simp [payloadOf, dlookup, pyEq]
  have hcompatEnv : is_compatible_proto_obj (.pdict [(.pstr "meta",
      .pdict [(.pstr "protocol", .pstr "serobj"), (.pstr "version", .pint 0)]),
      (.pstr "payload", d)]) true = .ok true := by
    cases d <;> simp_all [is_compatible_proto_obj, containsKey, dlookup, pyEq, compatPayload]
  simp [roundTrip, serialize, hdec, Except.bind, Bind.bind, deserialize, hcompatEnv, hpay, hcons]

/-- C1 witness: the amended round trip evaluated on the concrete mapping
`{"a": [1, None, True]}` (scenario (b) of spec section 8). -/
theorem C1_roundtrip_amended_witness :
    cleanData (.pdict [(.pstr "a", .plist [.pint 1, .pnone, .pbool true])]) = true ∧
    roundTrip (.pdict [(.pstr "a", .plist [.pint 1, .pnone, .pbool true])]) =
      .ok (.pdict [(.pstr "a", .plist [.pint 1, .pnone, .pbool true])]) :=
  ⟨rfl, C1_roundtrip_amended _ rfl⟩

/-! ### Claim C2 -/

/-- The self-referential list `l = []; l.append(l)` as a heap: cell 0 is a
list object whose only element is a reference to cell 0. -/
def C2heap : List Cell := [Cell.listCell [GVal.gref 0]]

/-- The heap for `u = _Private(); l = [u, u, l-itself]`: a list sharing one
unserializable object between two slots and holding itself in the third. -/
def C2heapLeak : List Cell :=
  [Cell.listCell [GVal.gref 1, GVal.gref 1, GVal.gref 0], Cell.unserCell]

/-- C2 (code bug, evaluation at the failing inputs).  First input, the list
that contains itself: deconstruction terminates and emits exactly one cycle
reference, but the reference carries the counter value stored on entry (1,
zero.py lines 372-378) while the enclosing node's "__id__" is the counter
read after the children (2, line 405): the emitted cycle reference does not
point at the enclosing object's emitted id -- nor at any emitted id at all.
Second input, a self-referential list sharing one unserializable object
between two slots: the CUSTOM_NONE early return of line 400 skips the
finally-cleanup of line 425, so the second occurrence of the (completed,
sibling) unserializable object is emitted as the cycle reference
{"__SO_RC__": 2}, and the leaked in-progress entry (1, 2) survives the whole
pass in the recursion map. -/
theorem C2_cycle_eval :
    (decTop C2heap 5 (GVal.gref 0) =
      some (2, [], [GDoc.glistNode 2 [GDoc.grecRef 1]]) ∧ (1 : Nat) ≠ 2) ∧
    decTop C2heapLeak 6 (GVal.gref 0) =
      some (4, [(1, 2)],
        [GDoc.glistNode 4 [GDoc.gcustNone, GDoc.grecRef 2, GDoc.grecRef 1]]) :=
  ⟨⟨rfl, by decide⟩, rfl⟩

/-! ### Claim C3 -/

/-- C3: for every document node (dict) that contains the recursion marker key
"__SO_RC__", reconstruction raises the unsupported-recursion ValueError
"recursion is not supported yet" (zero.py lines 442-443) rather than
producing a value. -/
theorem C3_construct_rejects_recursion (kvs : List (PyVal × PyVal))
    (h : containsKey kvs (.pstr "__SO_RC__") = true) :
    construct (.pdict kvs) = .error recursionErrMsg := by
  rw [construct]
  simp [h]

/-- C3 witness: the cycle-reference node `{"__SO_RC__": 1}` is rejected. -/
theorem C3_construct_rejects_recursion_witness :
    containsKey [(.pstr "__SO_RC__", .pint 1)] (.pstr "__SO_RC__") = true ∧
    construct (.pdict [(.pstr "__SO_RC__", .pint 1)]) = .error recursionErrMsg :=
  ⟨rfl, C3_construct_rejects_recursion _ rfl⟩

/-! ### Claim C4 -/

/-- The document emitted for `[[]]`. -/
def C4doc : PyVal := mkNode 2 (.plist [mkNode 2 (.plist [])])

/-- C4 (code bug, evaluation at the failing inputs): serializing `[[]]`
emits the outer and the inner raw-container node both with "__id__" = 2,
because zero.py line 405 reads `self._counter` only at return time, after
the children have been deconstructed; the ids in traversal order are [2, 2],
which is not strictly increasing (pairwise).  The same happens to typed
(source-bearing) nodes: `iter([iter([])])` emits two typed nodes both with
"__id__" = 2 (line 420 also reads the counter after the classification phase
consumed the children). -/
theorem C4_duplicate_ids_eval :
    (deconstruct 0 (.plist [.plist []]) = .ok (2, C4doc) ∧
      docIds C4doc = [2, 2] ∧ ¬ List.Pairwise (· < ·) ([2, 2] : List Int)) ∧
    (deconstruct 0 (.iterObj [.iterObj []]) =
        .ok (2, mkIterNode 2 [mkIterNode 2 []]) ∧
      docIds (mkIterNode 2 [mkIterNode 2 []]) = [2, 2]) :=
  ⟨⟨rfl, rfl, by simp⟩, rfl, rfl⟩

/-! ### Claim C10 -/

/-- C10: whenever the envelope compatibility check with
`raise_exception=False` returns false, `deserialize` returns None rather
than raising, and reconstruction of the payload is never attempted (the
result is None even when constructing the payload would raise). -/
theorem C10_incompatible_returns_none (pv : PyVal)
    (h : is_compatible_proto_obj pv false = .ok false) :
    deserialize pv false = .ok .pnone := by
  simp [deserialize, h, Except.bind, Bind.bind]

/-- C10 witness: an envelope whose dict payload fails the schema; its payload
contains a cycle reference, so reconstructing it would raise -- deserialize
still returns None. -/
theorem C10_incompatible_returns_none_witness :
    is_compatible_proto_obj (.pdict [(.pstr "meta", .pdict []),
      (.pstr "payload", .pdict [(.pstr "__SO_RC__", .pint 1)])]) false = .ok false ∧
    deserialize (.pdict [(.pstr "meta", .pdict []),
      (.pstr "payload", .pdict [(.pstr "__SO_RC__", .pint 1)])]) false = .ok .pnone :=
  ⟨rfl, C10_incompatible_returns_none _ rfl⟩



/-- Element-wise deconstruction preserves the element count. -/
theorem decList_length {xs : List PyVal} {c c' : Nat} {ds : List PyVal}
    (h : deconstructList c xs = .ok (c', ds)) : ds.length = xs.length := by
  induction xs generalizing c c' ds with
  | nil =>
    simp [deconstructList] at h
    simp [← h.2]
  | cons v t ih =>
    cases hv : deconstruct c v with
    | error e => simp [deconstructList, hv, Except.bind, Bind.bind] at h
    | ok p =>
      cases hts : deconstructList p.1 t with
      | error e => simp [deconstructList, hv, hts, Except.bind, Bind.bind] at h
      | ok q =>
        simp [deconstructList, hv, hts, Except.bind, Bind.bind] at h
        have hlen := ih hts
        simp [← h.2, hlen]

mutual

/-- Deconstruction never raises on a value free of the CUSTOM_NONE
sentinel. -/
theorem decNoThrow (v : PyVal) (c : Nat) (h : noCustNone v = true) :
    ∃ p, deconstruct c v = .ok p := by
  match v with
  | .pnone => exact ⟨(c, .pnone), rfl⟩
  | .pbool b => exact ⟨(c, .pbool b), rfl⟩
  | .pint n => exact ⟨(c, .pint n), rfl⟩
  | .pfloat f => exact ⟨(c, .pfloat f), rfl⟩
  | .pstr s => exact ⟨(c, .pstr s), rfl⟩
  | .plist xs =>
    have hx : noCustNoneL xs = true := by simpa [noCustNone] using h
    obtain ⟨⟨c2, ds⟩, hd⟩ := decNoThrowL xs (c + 1) hx
    exact ⟨(c2, mkNode c2 (.plist ds)), by simp [deconstruct, hd, Except.bind, Bind.bind]⟩
  | .pdict kvs =>
    by_cases hp : isProtoDict kvs = true
    · exact ⟨(c, .pdict kvs), by simp [deconstruct, hp]⟩
    · have hk : noCustNoneK kvs = true := by simpa [noCustNone] using h
      obtain ⟨⟨c2, ds⟩, hd⟩ := decNoThrowK kvs (c + 1) hk
      exact ⟨(c2, mkNode c2 (.pdict ds)),
        by simp [deconstruct, hp, hd, Except.bind, Bind.bind]⟩
  | .iterObj xs =>
    have hx : noCustNoneL xs = true := by simpa [noCustNone] using h
    obtain ⟨⟨c2, ds⟩, hd⟩ := decNoThrowL xs (c + 1) hx
    exact ⟨(c2, mkIterNode c2 ds),
      by simp [deconstruct, iterCopy, hd, Except.bind, Bind.bind]⟩
  | .unser => exact ⟨(c + 1, .custNone), rfl⟩
  | .custNone => simp [noCustNone] at h
termination_by sizeOf v

theorem decNoThrowL (xs : List PyVal) (c : Nat) (h : noCustNoneL xs = true) :
    ∃ p, deconstructList c xs = .ok p := by
  match xs with
  | [] => exact ⟨(c, []), rfl⟩
  | v :: t =>
    have h' : noCustNone v = true ∧ noCustNoneL t = true := by
      simpa [noCustNoneL] using h
    obtain ⟨⟨c1, d⟩, hd⟩ := decNoThrow v c h'.1
    obtain ⟨⟨c2, ds⟩, hds⟩ := decNoThrowL t c1 h'.2
    exact ⟨(c2, d :: ds), by simp [deconstructList, hd, hds, Except.bind, Bind.bind]⟩
termination_by sizeOf xs

theorem decNoThrowK (kvs : List (PyVal × PyVal)) (c : Nat) (h : noCustNoneK kvs = true) :
    ∃ p, deconstructKVs c kvs = .ok p := by
  match kvs with
  | [] => exact ⟨(c, []), rfl⟩
  | (k, v) :: t =>
    have h' : (noCustNone k = true ∧ noCustNone v = true) ∧ noCustNoneK t = true := by
      simpa [noCustNoneK] using h
    obtain ⟨⟨c1, dk⟩, hdk⟩ := decNoThrow k c h'.1.1
    obtain ⟨⟨c2, dv⟩, hdv⟩ := decNoThrow v c1 h'.1.2
    obtain ⟨⟨c3, ds⟩, hds⟩ := decNoThrowK t c2 h'.2
    exact ⟨(c3, (dk, dv) :: ds),
      by simp [deconstructKVs, hdk, hdv, hds, Except.bind, Bind.bind]⟩
termination_by sizeOf kvs

end

/-- Only the unserializable-object category deconstructs to the CUSTOM_NONE
sentinel. -/
theorem dec_ne_custNone {v : PyVal} {c c' : Nat} {d : PyVal}
    (hne : v ≠ .unser) (hd : deconstruct c v = .ok (c', d)) : d ≠ .custNone := by
  match v with
  | .pnone => simp [deconstruct] at hd; simp [← hd.2]
  | .pbool b => simp [deconstruct] at hd; simp [← hd.2]
  | .pint n => simp [deconstruct] at hd; simp [← hd.2]
  | .pfloat f => simp [deconstruct] at hd; simp [← hd.2]
  | .pstr s => simp [deconstruct] at hd; simp [← hd.2]
  | .plist xs =>
    cases hl : deconstructList (c + 1) xs with
    | error e => simp [deconstruct, hl, Except.bind, Bind.bind] at hd
    | ok q =>
      simp [deconstruct, hl, Except.bind, Bind.bind] at hd
      simp [← hd.2, mkNode]
  | .pdict kvs =>
    by_cases hp : isProtoDict kvs = true
    · simp [deconstruct, hp] at hd
      simp [← hd.2]
    · cases hl : deconstructKVs (c + 1) kvs with
      | error e => simp [deconstruct, hp, hl, Except.bind, Bind.bind] at hd
      | ok q =>
        simp [deconstruct, hp, hl, Except.bind, Bind.bind] at hd
        simp [← hd.2, mkNode]
  | .iterObj xs =>
    cases hl : deconstructList (c + 1) xs with
    | error e => simp [deconstruct, iterCopy, hl, Except.bind, Bind.bind] at hd
    | ok q =>
      simp [deconstruct, iterCopy, hl, Except.bind, Bind.bind] at hd
      simp [← hd.2, mkIterNode]
  | .unser => exact absurd rfl hne
  | .custNone => simp [deconstruct] at hd

theorem deconstruct_prim {v : PyVal} (h : is_primitive_object v = true) (c : Nat) :
    deconstruct c v = .ok (c, v) := by
  cases v <;> simp_all [is_primitive_object, deconstruct]

theorem processArgs_all_prim {args : List Arg}
    (h : ∀ a ∈ args, is_primitive_object a.value = true) (c : Nat) :
    processArgs c args = .ok (c, args) := by
  induction args generalizing c with
  | nil => rfl
  | cons a t ih =>
    obtain ⟨an, av⟩ := a
    have ha : is_primitive_object av = true := h ⟨an, av⟩ (List.mem_cons_self _ t)
    have ht := ih (fun b hb => h b (List.mem_cons_of_mem _ hb)) (c := c)
    cases av <;> simp_all [processArgs, deconstruct, Except.bind, Bind.bind, is_primitive_object]

theorem pyEq_refl_prim {v : PyVal} (h : is_primitive_object v = true) :
    pyEq v v = true := by
  cases v <;> simp_all [is_primitive_object, pyEq]

theorem argListEq_refl_prim {args : List Arg}
    (h : ∀ a ∈ args, is_primitive_object a.value = true) :
    argListEq args args = true := by
  induction args with
  | nil => rfl
  | cons a t ih =>
    have ha := pyEq_refl_prim (h a (List.mem_cons_self a t))
    have ht := ih (fun b hb => h b (List.mem_cons_of_mem a hb))
    simp [argListEq, argEq, ha, ht]

theorem processArgs_unser {args : List Arg}
    (hw : ∀ a ∈ args, noCustNone a.value = true)
    (hx : ∃ a ∈ args, a.value = .unser) (c : Nat) :
    processArgs c args = .error argErrMsg := by
  induction args generalizing c with
  | nil => simp at hx
  | cons a t ih =>
    by_cases hau : a.value = .unser
    · simp [processArgs, hau, deconstruct, Except.bind, Bind.bind]
    · obtain ⟨⟨c1, d⟩, hd⟩ := decNoThrow a.value c (hw a (List.mem_cons_self a t))
      have hdc : d ≠ .custNone := dec_ne_custNone hau hd
      have hx' : ∃ b ∈ t, b.value = .unser := by
        obtain ⟨b, hb, hbv⟩ := hx
        rcases List.mem_cons.mp hb with hba | hbt
        · exact absurd (hba ▸ hbv) hau
        · exact ⟨b, hbt, hbv⟩
      have ht := ih (fun b hb => hw b (List.mem_cons_of_mem a hb)) hx' (c := c1)
      cases d <;> simp_all [processArgs, hd, ht, Except.bind, Bind.bind]

/-- The attrs loop leaves primitive-valued attributes untouched (their
deconstruction is the identity and does not advance the counter). -/
theorem processAttrs_all_prim {attrs : List (String × PyVal)}
    (h : ∀ kv ∈ attrs, is_primitive_object kv.2 = true) (c : Nat) :
    processAttrs c attrs = .ok (c, attrs) := by
  induction attrs generalizing c with
  | nil => rfl
  | cons kv t ih =>
    obtain ⟨k, v⟩ := kv
    have ha : is_primitive_object v = true := h ⟨k, v⟩ (List.mem_cons_self _ t)
    have ht := ih (fun b hb => h b (List.mem_cons_of_mem _ hb)) (c := c)
    cases v <;> simp_all [processAttrs, deconstruct, Except.bind, Bind.bind, is_primitive_object]

/-- The attrs loop drops an unserializable attribute (its deconstruction
returns the CUSTOM_NONE sentinel after advancing the counter once) and keeps
the primitive-valued neighbours unchanged. -/
theorem processAttrs_drop_unser {pre post : List (String × PyVal)} {k : String}
    (h : ∀ kv ∈ pre ++ post, is_primitive_object kv.2 = true) (c : Nat) :
    processAttrs c (pre ++ (k, PyVal.unser) :: post) = .ok (c + 1, pre ++ post) := by
  induction pre generalizing c with
  | nil =>
    have hp := processAttrs_all_prim (fun b hb => h b hb) (c := c + 1)
    simp only [List.nil_append] at hp ⊢
    simp [processAttrs, deconstruct, Except.bind, Bind.bind, hp]
  | cons kv t ih =>
    obtain ⟨k0, v0⟩ := kv
    have ha : is_primitive_object v0 = true := h ⟨k0, v0⟩ (List.mem_cons_self _ _)
    have ht := ih (fun b hb => h b (List.mem_cons_of_mem _ hb)) (c := c)
    cases v0 <;>
      simp_all [processAttrs, deconstruct, Except.bind, Bind.bind, is_primitive_object]



/-! ### Claim C5 -/

/-- C5: for every object and override key, `search_attr_in` resolves the key
in exactly three tiers in order -- first the per-type-namespaced
private-style key (_ClassName__KEY), then the single-leading-underscore key
(_KEY), then the bare key -- returning the key name actually found together
with its value; when no default is supplied and none of the three tiers
resolve it raises AttributeError, and when a default is supplied (and none
resolve) it returns the bare key with the default. -/
theorem C5_search_attr_three_tiers {α : Type} (o : PyObject α) (name : String) :
    (∀ (d? : Option α) v, getattrO o ("_" ++ o.className ++ "__" ++ name) = some v →
       search_attr_in o name d? = .ok ("_" ++ o.className ++ "__" ++ name, v)) ∧
    (∀ (d? : Option α) v, getattrO o ("_" ++ o.className ++ "__" ++ name) = none →
       getattrO o ("_" ++ name) = some v →
       search_attr_in o name d? = .ok ("_" ++ name, v)) ∧
    (∀ (d? : Option α) v, getattrO o ("_" ++ o.className ++ "__" ++ name) = none →
       getattrO o ("_" ++ name) = none →
       getattrO o name = some v →
       search_attr_in o name d? = .ok (name, v)) ∧
    (getattrO o ("_" ++ o.className ++ "__" ++ name) = none →
       getattrO o ("_" ++ name) = none →
       getattrO o name = none →
       search_attr_in o name none = .error attributeErrMsg ∧
       ∀ d, search_attr_in o name (some d) = .ok (name, d)) := by
  refine ⟨?_, ?_, ?_, fun h1 h2 h3 => ⟨?_, ?_⟩⟩ <;>
    intros <;> simp_all [search_attr_in]
  · rename_i d? v h1 h2 h3
    cases d? <;> simp [Option.getD, *]

/-- C5 witness: the three-tier search evaluated on concrete objects (tier 1
hit; all-miss without default; all-miss with default). -/
theorem C5_search_attr_three_tiers_witness :
    search_attr_in (⟨"C", [("_C__K", 7)]⟩ : PyObject Nat) "K" none = .ok ("_C__K", 7) ∧
    search_attr_in (⟨"C", [("x", 0)]⟩ : PyObject Nat) "K" none = .error attributeErrMsg ∧
    search_attr_in (⟨"C", [("x", 0)]⟩ : PyObject Nat) "K" (some 9) = .ok ("K", 9) :=
  ⟨(C5_search_attr_three_tiers (⟨"C", [("_C__K", 7)]⟩ : PyObject Nat) "K").1 none 7 rfl,
   ((C5_search_attr_three_tiers (⟨"C", [("x", 0)]⟩ : PyObject Nat) "K").2.2.2 rfl rfl rfl).1,
   ((C5_search_attr_three_tiers (⟨"C", [("x", 0)]⟩ : PyObject Nat) "K").2.2.2 rfl rfl rfl).2 9⟩

/-! ### Claim C6 -/

/-- The argument list `[{"name": "", "value": [1]}]` used to refute claim C6
as stated: `new_args` and `init_args` resolve to equal (but not identical)
lists whose single value is not primitive. -/
def C6args : List Arg := [⟨"", .plist [.pint 1]⟩]

/-- C6 counterexample: the claim "whenever new_args and init_args both
resolve to the same argument list, the emitted representation contains the
INIT_LIKE_NEW marker in place of init_args" fails on the code when the two
lists are equal but not the same object and hold a non-primitive value:
`_process_args` rewrites the value slots of `new_args` in place with
deconstructed documents before the `init_args == new_args` comparison
(zero.py lines 347-350), so the comparison fails and `init_args` is emitted
as a separately processed list (with fresh ids), not as the marker. -/
theorem C6_marker_counterexample :
    buildRepr 0 [] (some C6args) (some C6args) false =
      .ok (2, ⟨[], some [⟨"", mkNode 1 (.plist [.pint 1])⟩],
               some (.args [⟨"", mkNode 2 (.plist [.pint 1])⟩])⟩) ∧
    (InitArgsOut.args [⟨"", mkNode 2 (.plist [.pint 1])⟩]) ≠ InitArgsOut.marker :=
  ⟨rfl, fun hx => InitArgsOut.noConfusion hx⟩

/-- C6 (amended): the INIT_LIKE_NEW marker is emitted in place of init_args
when init_args and new_args are the identical list object, or when init_args
equals new_args after new_args' values have been deconstructed (in
particular whenever the lists are equal with all values primitive); and the
marker only ever appears in an emitted representation when new_args is also
present in that representation. -/
theorem C6_marker_amended :
    (∀ (c : Nat) (attrs : List (String × PyVal)) (na : List Arg) (c1 : Nat)
       (as' : List (String × PyVal)) (c2 : Nat) (pna : List Arg),
       processAttrs c attrs = .ok (c1, as') →
       processArgs c1 na = .ok (c2, pna) →
       buildRepr c attrs (some na) (some na) true = .ok (c2, ⟨as', some pna, some .marker⟩)) ∧
    (∀ (c : Nat) (na : List Arg), (∀ a ∈ na, is_primitive_object a.value = true) →
       buildRepr c [] (some na) (some na) false = .ok (c, ⟨[], some na, some .marker⟩)) ∧
    (∀ (c : Nat) (attrs : List (String × PyVal)) (na? ia? : Option (List Arg))
       (al : Bool) (c' : Nat) (r : ObjRepr),
       buildRepr c attrs na? ia? al = .ok (c', r) →
       r.init_args = some .marker → r.new_args.isSome = true) := by
  refine ⟨?_, ?_, ?_⟩
  · intro c attrs na c1 as' c2 pna h1 h2
    simp [buildRepr, h1, h2, Except.bind, Bind.bind]
  · intro c na h
    simp [buildRepr, processAttrs, processArgs_all_prim h, argListEq_refl_prim h,
          Except.bind, Bind.bind]
  · intro c attrs na? ia? al c' r h hm
    cases hpa : processAttrs c attrs with
    | error e => simp [buildRepr, hpa, Except.bind, Bind.bind] at h
    | ok p =>
      cases na? with
      | none =>
        cases ia? with
        | none =>
          simp [buildRepr, hpa, Except.bind, Bind.bind] at h
          simp [← h.2] at hm ⊢
        | some ia =>
          cases hia : processArgs p.1 ia with
          | error e => simp [buildRepr, hpa, hia, Except.bind, Bind.bind] at h
          | ok q =>
            simp [buildRepr, hpa, hia, Except.bind, Bind.bind] at h
            rw [← h.2] at hm
            simp at hm
      | some na =>
        cases hna : processArgs p.1 na with
        | error e => simp [buildRepr, hpa, hna, Except.bind, Bind.bind] at h
        | ok q =>
          cases ia? with
          | none =>
            simp [buildRepr, hpa, hna, Except.bind, Bind.bind] at h
            simp [← h.2]
          | some ia =>
            by_cases hcond : (al || argListEq ia q.2) = true
            · simp [buildRepr, hpa, hna, hcond, Except.bind, Bind.bind] at h
              simp [← h.2]
            · cases hia : processArgs q.1 ia with
              | error e =>
                simp [buildRepr, hpa, hna, hcond, hia, Except.bind, Bind.bind] at h
              | ok q' =>
                simp [buildRepr, hpa, hna, hcond, hia, Except.bind, Bind.bind] at h
                simp [← h.2]

/-- C6 witness: the three amended parts evaluated on concrete inputs. -/
theorem C6_marker_amended_witness :
    buildRepr 0 [] (some [⟨"", PyVal.pint 3⟩]) (some [⟨"", PyVal.pint 3⟩]) true =
      .ok (0, ⟨[], some [⟨"", PyVal.pint 3⟩], some .marker⟩) ∧
    buildRepr 0 [] (some [⟨"", PyVal.pint 3⟩]) (some [⟨"", PyVal.pint 3⟩]) false =
      .ok (0, ⟨[], some [⟨"", PyVal.pint 3⟩], some .marker⟩) ∧
    (ObjRepr.mk [] (some []) (some InitArgsOut.marker)).new_args.isSome = true :=
  ⟨C6_marker_amended.1 0 [] [⟨"", PyVal.pint 3⟩] 0 [] 0 [⟨"", PyVal.pint 3⟩] rfl rfl,
   C6_marker_amended.2.1 0 [⟨"", PyVal.pint 3⟩] (by intro a ha; fin_cases ha <;> rfl),
   C6_marker_amended.2.2 0 [] (some []) (some []) true 0 ⟨[], some [], some .marker⟩
     rfl rfl⟩

/-! ### Claim C7 -/

/-- C7: during deconstruction of an object's representation, an attribute
whose value is unserializable (deconstructs to the CUSTOM_NONE sentinel) is
silently omitted from the emitted attrs mapping without raising -- the
surrounding attributes survive unchanged -- whereas an unserializable value
among new_args or init_args aborts the whole deconstruction with the
argument-not-serializable ValueError. -/
theorem C7_attrs_dropped_args_fatal :
    (∀ (c : Nat) (k : String) (pre post : List (String × PyVal)),
       (∀ kv ∈ pre ++ post, is_primitive_object kv.2 = true) →
       buildRepr c (pre ++ (k, PyVal.unser) :: post) none none false =
         .ok (c + 1, ⟨pre ++ post, some [], none⟩)) ∧
    (∀ (c : Nat) (args : List Arg), (∀ a ∈ args, noCustNone a.value = true) →
       (∃ a ∈ args, a.value = PyVal.unser) →
       buildRepr c [] (some args) none false = .error argErrMsg) ∧
    (∀ (c : Nat) (args : List Arg), (∀ a ∈ args, noCustNone a.value = true) →
       (∃ a ∈ args, a.value = PyVal.unser) →
       buildRepr c [] none (some args) false = .error argErrMsg) := by
  refine ⟨?_, ?_, ?_⟩
  · intro c k pre post h
    simp [buildRepr, processAttrs_drop_unser h, Except.bind, Bind.bind]
  · intro c args hw hx
    simp [buildRepr, processAttrs, processArgs_unser hw hx, Except.bind, Bind.bind]
  · intro c args hw hx
    simp [buildRepr, processAttrs, processArgs_unser hw hx, Except.bind, Bind.bind]

/-- C7 witness: the attribute "secret" with an unserializable value is
dropped while its neighbours survive; one unserializable positional argument
aborts, whether among new_args or init_args. -/
theorem C7_attrs_dropped_args_fatal_witness :
    buildRepr 0 [("a", PyVal.pint 1), ("secret", PyVal.unser), ("b", PyVal.pstr "x")]
        none none false =
      .ok (1, ⟨[("a", PyVal.pint 1), ("b", PyVal.pstr "x")], some [], none⟩) ∧
    buildRepr 0 [] (some [⟨"", PyVal.unser⟩]) none false = .error argErrMsg ∧
    buildRepr 0 [] none (some [⟨"", PyVal.unser⟩]) false = .error argErrMsg :=
  ⟨C7_attrs_dropped_args_fatal.1 0 "secret" [("a", PyVal.pint 1)] [("b", PyVal.pstr "x")]
     (by intro kv h; fin_cases h <;> rfl),
   C7_attrs_dropped_args_fatal.2.1 0 [⟨"", PyVal.unser⟩]
     (by intro a h; fin_cases h <;> rfl)
     ⟨⟨"", PyVal.unser⟩, List.mem_cons_self _ _, rfl⟩,
   C7_attrs_dropped_args_fatal.2.2 0 [⟨"", PyVal.unser⟩]
     (by intro a h; fin_cases h <;> rfl)
     ⟨⟨"", PyVal.unser⟩, List.mem_cons_self _ _, rfl⟩⟩

/-! ### Claim C9 -/

/-- C9 counterexample: the claim "after the capture the original iterator is
left exhausted" fails on the code: zero.py line 389 iterates `copy(obj)`, an
independent iterator over the same remaining elements, so after
deconstructing `iter([1, 2, 3])` the original iterator still holds all three
elements -- it is not exhausted (the empty list is what the claim would
require).  (The repository's own test suite relies on this: test_32 compares
`list(test_obj)` with the round-tripped list after serializing.) -/
theorem C9_iterator_counterexample :
    (deconstructIterState 0 [.pint 1, .pint 2, .pint 3]).2 = [.pint 1, .pint 2, .pint 3] ∧
    (deconstructIterState 0 [.pint 1, .pint 2, .pint 3]).1 =
      .ok (1, mkIterNode 1 [.pint 1, .pint 2, .pint 3]) ∧
    ([PyVal.pint 1, .pint 2, .pint 3] : List PyVal) ≠ [] :=
  ⟨rfl, rfl, by simp⟩

/-- C9 (amended): for every iterator-like value, its remaining elements are
materialized exactly once, in order, into a sequence container node (the
element count is preserved), and after the capture the original iterator is
left untouched, still holding its remaining elements -- the code consumes an
independent copy, not the original.  (For sentinel-free elements the
hypothesis is always satisfiable, see `decNoThrowL`.) -/
theorem C9_iterator_amended (c : Nat) (elems : List PyVal) (c' : Nat) (ds : List PyVal)
    (hd : deconstructList (c + 1) elems = .ok (c', ds)) :
    ds.length = elems.length ∧
    deconstructIterState c elems = (.ok (c', mkIterNode c' ds), elems) :=
  ⟨decList_length hd,
   by simp [deconstructIterState, iterCopy, drainAll, hd, Except.bind, Bind.bind]⟩

/-- C9 witness: the amended statement evaluated on the iterator holding
[1, 2]. -/
theorem C9_iterator_amended_witness :
    deconstructList (0 + 1) [PyVal.pint 1, PyVal.pint 2] =
      .ok (1, [PyVal.pint 1, PyVal.pint 2]) ∧
    deconstructIterState 0 [PyVal.pint 1, PyVal.pint 2] =
      (.ok (1, mkIterNode 1 [PyVal.pint 1, PyVal.pint 2]), [PyVal.pint 1, PyVal.pint 2]) :=
  ⟨rfl, (C9_iterator_amended 0 [PyVal.pint 1, PyVal.pint 2] 1 [PyVal.pint 1, PyVal.pint 2] rfl).2⟩



/-! ### Claim C8 -/

/-- Every successful registration leaves the process default set. -/
theorem registerProtocol_dflt_isSome {st st' : RegState} {d : ProtoDef}
    (h : registerProtocol st d = .ok st') : st'.dflt.isSome = true := by
  by_cases hm : (regName d.pname, regVersion d.pversion) ∈ st.registered
  · simp [registerProtocol, hm] at h
  · simp [registerProtocol, hm] at h
    cases hd : st.dflt with
    | none => rw [hd] at h; simp [← h]
    | some p =>
      rw [hd] at h
      obtain ⟨dn, dv⟩ := p
      by_cases hc : regName d.pname = "serobj" ∧ dv < regVersion d.pversion
      · simp [hc] at h; simp [← h]
      · simp [hc] at h; simp [← h]

theorem fold_dflt_isSome : ∀ (ds : List ProtoDef) (st0 st : RegState),
    List.foldlM registerProtocol st0 ds = .ok st → st0.dflt.isSome = true →
    st.dflt.isSome = true := by
  intro ds
  induction ds with
  | nil =>
    intro st0 st h h0
    simp [List.foldlM, pure, Except.pure] at h
    rwa [← h]
  | cons d t ih =>
    intro st0 st h h0
    cases hr : registerProtocol st0 d with
    | error e => simp [List.foldlM, hr, Except.bind, Bind.bind] at h
    | ok st1 =>
      simp [List.foldlM, hr, Except.bind, Bind.bind] at h
      exact ih st1 st h (registerProtocol_dflt_isSome hr)

theorem serobj_fold : ∀ (ds : List ProtoDef) (st0 : RegState) (m : Nat) (st : RegState),
    st0.dflt = some ("serobj", m) →
    (∀ d ∈ ds, regName d.pname = "serobj") →
    List.foldlM registerProtocol st0 ds = .ok st →
    st.dflt = some ("serobj", ds.foldl (fun a d => max a (regVersion d.pversion)) m) := by
  intro ds
  induction ds with
  | nil =>
    intro st0 m st h0 hn h
    simp [List.foldlM, pure, Except.pure] at h
    rw [← h, h0]
    rfl
  | cons d t ih =>
    intro st0 m st h0 hn h
    cases hr : registerProtocol st0 d with
    | error e => simp [List.foldlM, hr, Except.bind, Bind.bind] at h
    | ok st1 =>
      simp [List.foldlM, hr, Except.bind, Bind.bind] at h
      have hd : regName d.pname = "serobj" := hn d (List.mem_cons_self d t)
      have h1 : st1.dflt = some ("serobj", max m (regVersion d.pversion)) := by
        by_cases hm : ("serobj", regVersion d.pversion) ∈ st0.registered
        · simp [registerProtocol, hd, hm] at hr
        · by_cases hc : m < regVersion d.pversion
          · simp [registerProtocol, hd, hm, h0, hc] at hr
            rw [← hr]
            simp [Nat.max_eq_right (Nat.le_of_lt hc)]
          · simp [registerProtocol, hd, hm, h0, hc] at hr
            rw [← hr]
            simp [Nat.max_eq_left (Nat.le_of_not_lt hc)]
      have := ih st1 (max m (regVersion d.pversion)) st h1
        (fun b hb => hn b (List.mem_cons_of_mem d hb)) h
      simpa using this

theorem noserobj_fold : ∀ (ds : List ProtoDef) (st0 : RegState) (p : String × Nat)
    (st : RegState), st0.dflt = some p →
    (∀ d ∈ ds, regName d.pname ≠ "serobj") →
    List.foldlM registerProtocol st0 ds = .ok st → st.dflt = some p := by
  intro ds
  induction ds with
  | nil =>
    intro st0 p st h0 hn h
    simp [List.foldlM, pure, Except.pure] at h
    rw [← h, h0]
  | cons d t ih =>
    intro st0 p st h0 hn h
    cases hr : registerProtocol st0 d with
    | error e => simp [List.foldlM, hr, Except.bind, Bind.bind] at h
    | ok st1 =>
      simp [List.foldlM, hr, Except.bind, Bind.bind] at h
      have hd : regName d.pname ≠ "serobj" := hn d (List.mem_cons_self d t)
      have h1 : st1.dflt = some p := by
        by_cases hm : (regName d.pname, regVersion d.pversion) ∈ st0.registered
        · simp [registerProtocol, hm] at hr
        · simp [registerProtocol, hm, h0, hd] at hr
          rw [← hr]
      exact ih st1 p st h1 (fun b hb => hn b (List.mem_cons_of_mem d hb)) h

theorem register_first {d : ProtoDef} {st : RegState}
    (h : registerProtocol ⟨[], none⟩ d = .ok st) :
    st.dflt = some (regName d.pname, regVersion d.pversion) := by
  simp [registerProtocol] at h
  rw [← h]

/-- C8 (amended): after any nonempty sequence of successful protocol
registrations, exactly one protocol-version pair is the process default
(the option holding it is always populated); when every registration uses
the reserved default name "serobj" the default is "serobj" at the highest
registered version; and when no registration uses the reserved name the
default is the first protocol registered.  (For mixed sequences the code
keeps the first-registered default unless a later "serobj" registration has
a version strictly greater than the current default's version -- see the
counterexample.) -/
theorem C8_default_amended :
    (∀ (d0 : ProtoDef) (ds : List ProtoDef) (st : RegState),
       runRegistrations (d0 :: ds) = .ok st → st.dflt.isSome = true) ∧
    (∀ (d0 : ProtoDef) (ds : List ProtoDef) (st : RegState),
       (∀ d ∈ d0 :: ds, regName d.pname = "serobj") →
       runRegistrations (d0 :: ds) = .ok st →
       st.dflt = some ("serobj",
         (d0 :: ds).foldl (fun a d => max a (regVersion d.pversion)) 0)) ∧
    (∀ (d0 : ProtoDef) (ds : List ProtoDef) (st : RegState),
       (∀ d ∈ d0 :: ds, regName d.pname ≠ "serobj") →
       runRegistrations (d0 :: ds) = .ok st →
       st.dflt = some (regName d0.pname, regVersion d0.pversion)) := by
  refine ⟨?_, ?_, ?_⟩
  · intro d0 ds st h
    cases hr : registerProtocol ⟨[], none⟩ d0 with
    | error e => simp [runRegistrations, List.foldlM, hr, Except.bind, Bind.bind] at h
    | ok st1 =>
      simp [runRegistrations, List.foldlM, hr, Except.bind, Bind.bind] at h
      exact fold_dflt_isSome ds st1 st h (registerProtocol_dflt_isSome hr)
  · intro d0 ds st hn h
    cases hr : registerProtocol ⟨[], none⟩ d0 with
    | error e => simp [runRegistrations, List.foldlM, hr, Except.bind, Bind.bind] at h
    | ok st1 =>
      simp [runRegistrations, List.foldlM, hr, Except.bind, Bind.bind] at h
      have h1 : st1.dflt = some ("serobj", regVersion d0.pversion) := by
        have := register_first hr
        rwa [hn d0 (List.mem_cons_self d0 ds)] at this
      have := serobj_fold ds st1 (regVersion d0.pversion) st h1
        (fun b hb => hn b (List.mem_cons_of_mem d0 hb)) h
      rw [this]
      simp [List.foldl]
  · intro d0 ds st hn h
    cases hr : registerProtocol ⟨[], none⟩ d0 with
    | error e => simp [runRegistrations, List.foldlM, hr, Except.bind, Bind.bind] at h
    | ok st1 =>
      simp [runRegistrations, List.foldlM, hr, Except.bind, Bind.bind] at h
      exact noserobj_fold ds st1 _ st (register_first hr)
        (fun b hb => hn b (List.mem_cons_of_mem d0 hb)) h

/-- C8 witness: the three amended parts evaluated on concrete registration
sequences. -/
theorem C8_default_amended_witness :
    (RegState.mk [("p", 1)] (some ("p", 1))).dflt.isSome = true ∧
    runRegistrations [⟨none, none⟩, ⟨some "serobj", some 3⟩] =
      .ok ⟨[("serobj", 0), ("serobj", 3)], some ("serobj", 3)⟩ ∧
    runRegistrations [⟨some "p", some 1⟩, ⟨some "q", some 9⟩] =
      .ok ⟨[("p", 1), ("q", 9)], some ("p", 1)⟩ ∧
    (RegState.mk [("serobj", 0), ("serobj", 3)] (some ("serobj", 3))).dflt =
      some ("serobj", [ProtoDef.mk none none, ProtoDef.mk (some "serobj") (some 3)].foldl
        (fun a d => max a (regVersion d.pversion)) 0) ∧
    (RegState.mk [("p", 1), ("q", 9)] (some ("p", 1))).dflt = some ("p", 1) :=
  ⟨C8_default_amended.1 ⟨some "p", some 1⟩ [] ⟨[("p", 1)], some ("p", 1)⟩ rfl,
   rfl, rfl,
   C8_default_amended.2.1 ⟨none, none⟩ [⟨some "serobj", some 3⟩]
     ⟨[("serobj", 0), ("serobj", 3)], some ("serobj", 3)⟩
     (by intro d hd; fin_cases hd <;> rfl) rfl,
   C8_default_amended.2.2 ⟨some "p", some 1⟩ [⟨some "q", some 9⟩]
     ⟨[("p", 1), ("q", 9)], some ("p", 1)⟩
     (by intro d hd; fin_cases hd <;> simp [regName]) rfl⟩

/-- The registration sequence refuting claim C8 as stated: a non-default
name first, then the reserved name with a smaller version. -/
def C8defs : List ProtoDef := [⟨some "other", some 5⟩, ⟨some "serobj", some 0⟩]

/-- C8 counterexample: the claim "the default is the highest version
registered under the reserved default protocol name, or, absent that, the
first non-default protocol registered" fails on the code: after registering
other@5 and then serobj@0, a protocol IS registered under the reserved name
"serobj", yet the default is other@5, because base.py lines 131-135 replace
the default only when the new version exceeds the *current default's*
version (5 < 0 fails). -/
theorem C8_default_counterexample :
    runRegistrations C8defs = .ok ⟨[("other", 5), ("serobj", 0)], some ("other", 5)⟩ ∧
    ("other" : String) ≠ "serobj" ∧
    ("serobj", 0) ∈ [("other", 5), ("serobj", 0)] :=
  ⟨rfl, by decide, by decide⟩

end Serobj
